import Mathlib

/-!
Verification development for the live transcriber/translator web application
(source: src/index.tsx). The source file contains two variants of the same
application: the primary VoiceNotesApp class (variant 1) and a second
GeminiLiveApp class (variant 2). Definitions below are shallow embeddings of
the functions of those classes; where the two variants differ, both are
embedded with a v1/v2 suffix.
-/

namespace TranscriberTranslator

/-! ## Playback Scheduler (playAudioChunk, src/index.tsx lines 900-931)

The output audio context clock and the cursor (field nextStartTime) are
modelled as rationals. A chunk carries the value of
outputAudioContext.currentTime observed when it is scheduled, together with
the decoded buffer duration. -/

/-- A decoded audio chunk as seen by playAudioChunk: the currentTime of the output
context at the moment of scheduling, and the duration of the decoded buffer. -/
structure PlaybackChunk where
  currentTime : ℚ
  duration : ℚ
deriving DecidableEq, Repr

/-- One step of the scheduler, embedding the tail of playAudioChunk:
if nextStartTime < currentTime then nextStartTime := currentTime;
source.start(nextStartTime); nextStartTime += audioBuffer.duration.
Returns (the start time passed to source.start, the updated cursor). -/
def playAudioChunk (nextStartTime : ℚ) (c : PlaybackChunk) : ℚ × ℚ :=
  let startAt := if nextStartTime < c.currentTime then c.currentTime else nextStartTime
  (startAt, startAt + c.duration)

/-- Scheduling a whole sequence of chunks, threading the cursor through
playAudioChunk. Returns the list of start times and the final cursor. -/
def scheduleChunks (cursor : ℚ) : List PlaybackChunk → List ℚ × ℚ
  | [] => ([], cursor)
  | c :: cs =>
    let step := playAudioChunk cursor c
    let rest := scheduleChunks step.2 cs
    (step.1 :: rest.1, rest.2)

/-- No chunk is delayed past the cursor: for each chunk, the observed
currentTime is at most the cursor value in force when it is scheduled
(so the max in playAudioChunk resolves to the cursor every time). -/
def noLateChunks : ℚ → List PlaybackChunk → Prop
  | _, [] => True
  | cursor, c :: cs => c.currentTime ≤ cursor ∧ noLateChunks (cursor + c.duration) cs

/-! ## PCM encode (processor.onaudioprocess, lines 817-823 and 1330-1336)
and decode (decodeAudioData, lines 933-945)

The capture pipeline computes, per 32-bit float sample x,
Math.max(-1, Math.min(1, x)) * 0x7FFF and stores the result into an
Int16Array element. Per JavaScript semantics (ToInt16), the store truncates
the number toward zero and wraps it modulo 2^16 into [-32768, 32767].
Samples are modelled as rationals. -/

/-- Math.max(-1, Math.min(1, x)). -/
def clampSample (x : ℚ) : ℚ := max (-1) (min 1 x)

/-- Truncation toward zero of a rational, as JavaScript ToInt16 does before
wrapping. -/
def ratTrunc (q : ℚ) : ℤ := if 0 ≤ q then ⌊q⌋ else ⌈q⌉

/-- Wrap of an integer into a signed 16-bit value, the modular part of the
JavaScript Int16Array element conversion. -/
def toInt16 (n : ℤ) : ℤ := (n + 32768) % 65536 - 32768

/-- Per-sample conversion of the capture pipeline:
pcmData[i] = Math.max(-1, Math.min(1, inputData[i])) * 0x7FFF stored into an
Int16Array element (truncate toward zero, then wrap to 16 bits). -/
def pcmEncode (x : ℚ) : ℤ := toInt16 (ratTrunc (clampSample x * 32767))

/-- Modelled from the spec: the conversion as the spec describes it,
round(clamp(x,-1,1) * 32767), rounding to nearest. Used only to compare the
description given by the spec with the actual conversion pcmEncode of the pipeline. -/
def pcmEncodeSpec (x : ℚ) : ℤ := round (clampSample x * 32767)

/-- Per-sample normalization in decodeAudioData: float32Data[i] = dataInt16[i] / 32768.0. -/
def pcmDecode (v : ℤ) : ℚ := (v : ℚ) / 32768

/-! ## Raw transcript state (appendRawSegment / updateInterimText /
ensureInterimSpan, src/index.tsx lines 480-527)

The rawTranscription container holds a list of finalized transcript-segment
spans followed (when present) by a single interim span. The textContent of a segment
span is the finalized text plus one trailing separator space, exactly
as appendRawSegment sets it. interim = none models the absence of the
interim span from the container; some s models an attached interim span with
textContent s. -/

/-- JavaScript String.prototype.trim: remove leading and trailing
whitespace. Defined over the character list so that it computes by
reduction. -/
def jsTrim (s : String) : String :=
  String.mk (((s.data.dropWhile Char.isWhitespace).reverse.dropWhile Char.isWhitespace).reverse)

/-- Abstract state of the rawTranscription DOM container: the textContents of
the transcript-segment spans in document order, and the interim span. -/
structure TranscriptState where
  segments : List String
  interim : Option String
deriving DecidableEq, Repr

/-- ensureInterimSpan: if the interim span is missing (or detached), create an
empty one and append it at the end of the container. -/
def ensureInterimSpan (st : TranscriptState) : TranscriptState :=
  match st.interim with
  | none => { st with interim := some "" }
  | some _ => st

/-- appendRawSegment: blank (empty or whitespace-only) text returns without
any change; otherwise a span whose textContent is the text followed by one space is inserted before
the interim span when one is attached, else appended with the interim span
re-created after it. -/
def appendRawSegment (st : TranscriptState) (text : String) : TranscriptState :=
  if text = "" || jsTrim text = "" then st
  else
    match st.interim with
    | some _ => { st with segments := st.segments ++ [text ++ " "] }
    | none => ensureInterimSpan { st with segments := st.segments ++ [text ++ " "] }

/-- updateInterimText: ensure the interim span exists, then wholly replace its
textContent. -/
def updateInterimText (st : TranscriptState) (text : String) : TranscriptState :=
  let st1 := ensureInterimSpan st
  { st1 with interim := some text }

/-! ## Local recognition adapter (recognition.onresult / onerror / onend,
src/index.tsx lines 710-757) -/

/-- One entry of a SpeechRecognition result event: the first-alternative
transcript and the isFinal flag. -/
structure RecResult where
  transcript : String
  isFinal : Bool
deriving DecidableEq, Repr

/-- The accumulation loop of recognition.onresult: concatenate final
transcripts into final and non-final ones into interim, in event order. -/
def gatherResults (results : List RecResult) : String × String :=
  results.foldl
    (fun acc r =>
      if r.isFinal then (acc.1 ++ r.transcript, acc.2) else (acc.1, acc.2 ++ r.transcript))
    ("", "")

/-- The body of recognition.onresult (variant 1, lines 710-730). The first
two Bool arguments are the fields isRecording and isWebSpeechActive visible
to the closure; the handler body never reads them. If the accumulated final
text is nonempty it is appended as a raw segment and, when the source is the
microphone and translation mode is on, also handed to the translation
pipeline (returned as some final); finally the interim span is replaced.
Returns the new transcript state and the text handed to
handleTranslationAndTTS, if any. -/
def micOnresult (isRecording isWebSpeechActive : Bool)
    (sourceIsMic isTranslationActive : Bool)
    (st : TranscriptState) (results : List RecResult) :
    TranscriptState × Option String :=
  let gathered := gatherResults results
  let final := gathered.1
  let interim := gathered.2
  if final ≠ "" then
    let st1 := appendRawSegment st final
    let handed := if sourceIsMic && isTranslationActive then some final else none
    (updateInterimText st1 interim, handed)
  else
    (updateInterimText st interim, none)

/-- Flags of the session relevant to the recognition adapter: the
isRecording flag of the orchestrator and the isWebSpeechActive flag of the adapter. -/
structure SpeechSessionState where
  isRecording : Bool
  isWebSpeechActive : Bool
deriving DecidableEq, Repr

/-- Events that touch the two adapter flags during one session. -/
inductive SpeechEvent where
  /-- recognition.onerror fired with the given event.error code. -/
  | errorEvt (code : String)
  /-- recognition.onend fired (a successful restart leaves the flags as they are). -/
  | endEvt
  /-- the try-catch around recognition.start() in the onend timeout caught a failure. -/
  | restartFailed
  /-- stopLiveSession ran: isRecording := false and isWebSpeechActive := false. -/
  | stopSession
deriving DecidableEq, Repr

/-- Effect of each event on the adapter flags, embedded from the handlers:
onerror disables the adapter exactly for the codes aborted and not-allowed
(other codes are only logged); onend itself changes no flag; a restart
failure disables the adapter; stopLiveSession clears both flags. -/
def speechStep (s : SpeechSessionState) : SpeechEvent → SpeechSessionState
  | .errorEvt code =>
      if code = "aborted" || code = "not-allowed" then
        { s with isWebSpeechActive := false }
      else s
  | .endEvt => s
  | .restartFailed => { s with isWebSpeechActive := false }
  | .stopSession => { isRecording := false, isWebSpeechActive := false }

/-- The guard in recognition.onend (and re-checked inside its timeout) that
decides whether a restart is attempted: isRecording && isWebSpeechActive. -/
def onendRestarts (s : SpeechSessionState) : Bool :=
  s.isRecording && s.isWebSpeechActive

/-! ## Mode resolution (startLiveSession, src/index.tsx lines 630-668,
identical in both variants) and audio routing (onopen, lines 806-813 in
variant 1 and lines 1318-1323 in variant 2) -/

/-- The capture source selected for the session. -/
inductive SourceType where
  | mic
  | system
deriving DecidableEq, Repr

/-- isTranslationMode = selectedOutputLanguage !== none &&
selectedOutputLanguage !== selectedInputLanguage. -/
def isTranslationMode (outputLanguage inputLanguage : String) : Bool :=
  outputLanguage ≠ "none" && outputLanguage ≠ inputLanguage

/-- The system instruction of the Mic + translation branch: the live session
is a pure text-to-speech reader (Do not translate. Do not comment. Just read
the text provided.), parameterized by the display text of the output
language. -/
def micTranslateInstruction (outputLanguageText : String) : String :=
  "You are a text-to-speech engine. \n          You will receive text in ["
    ++ outputLanguageText
    ++ "]. \n          Your ONLY task is to read it aloud instantly with a warm, highly motivated, faithfully convicted tone in ["
    ++ outputLanguageText
    ++ "].\n          Do not translate (it is already translated). \n          Do not comment. \n          Just read the text provided."

/-- The system instruction of the SystemAudio + translation branch: listen,
translate and read aloud. -/
def systemTranslateInstruction (outputLanguageText : String) : String :=
  "Your job is to translate the input audio into ["
    ++ outputLanguageText
    ++ "] and natively read aloud in a warm highly motivated, faithfully convicted style of voice and tone. \n           You are not allowed to interact or comment.\n           Your only task is to listen, translate, and read aloud the translation.\n           Start continuously."

/-- The system instruction of the remaining branch: transcription assistant,
must not speak. -/
def transcribeOnlyInstruction : String :=
  "You are a professional transcription assistant. \n          Your task is to listen to the user audio and generate accurate transcriptions.\n          Do not hallucinate. If the audio is silent, do not output text.\n          IMPORTANT: You must not speak. Output only silence in the audio channel unless you need to clarify something briefly."

/-- The if / else-if / else chain choosing systemInstruction (lines 646-668,
same text in both variants). -/
def resolveSystemInstruction (source : SourceType)
    (outputLanguage inputLanguage outputLanguageText : String) : String :=
  if source = SourceType.mic && isTranslationMode outputLanguage inputLanguage then
    micTranslateInstruction outputLanguageText
  else if source = SourceType.system && isTranslationMode outputLanguage inputLanguage then
    systemTranslateInstruction outputLanguageText
  else
    transcribeOnlyInstruction

/-- The audio-routing decision of variant 1 in onopen (lines 806-813):
shouldStreamAudioToGemini = (selectedSourceType === system) ||
(!isTranslationMode). It does not consult the recognition adapter. -/
def shouldStreamAudioToGemini_v1 (source : SourceType) (translationOn : Bool) : Bool :=
  source = SourceType.system || !translationOn

/-- The audio-routing decision of variant 2 in onopen (lines 1318-1323):
isMicFallback = (mic && !isWebSpeechActive);
shouldStreamAudioToGemini = system || !isTranslationMode || isMicFallback,
reading isWebSpeechActive at connection-open time. -/
def shouldStreamAudioToGemini_v2 (source : SourceType) (translationOn : Bool)
    (isWebSpeechActive : Bool) : Bool :=
  let isMicFallback := source = SourceType.mic && !isWebSpeechActive
  source = SourceType.system || !translationOn || isMicFallback

/-! ## Translation client and its caller (translateTextWithFlash lines
580-591, handleTranslationAndTTS lines 596-613) -/

/-- Outcome of the generateContent call inside translateTextWithFlash: either
the request threw (network or API failure) or it resolved with response.text. -/
inductive FlashOutcome where
  | failure
  | success (text : String)
deriving DecidableEq, Repr

/-- translateTextWithFlash: response.text.trim() on success, and the catch
branch returns the empty string on failure instead of rethrowing. -/
def translateTextWithFlash : FlashOutcome → String
  | .failure => ""
  | .success t => jsTrim t

/-- Downstream effects of handleTranslationAndTTS. -/
inductive TTSEffect where
  /-- appendTranslatedText: render the translated text. -/
  | displayTranslation (t : String)
  /-- highlightActiveSegment: highlight the most recent raw segment. -/
  | highlightSegment
  /-- session.send of the translated text as an end-of-turn user turn. -/
  | sendSpeakTurn (t : String)
deriving DecidableEq, Repr

/-- handleTranslationAndTTS as the list of effects it performs:
if (!translatedText) return; then render, highlight, and (when a session
promise exists) send the text to the live session to be read aloud. -/
def handleTranslationAndTTS (outcome : FlashOutcome) (sessionPromisePresent : Bool) :
    List TTSEffect :=
  let translatedText := translateTextWithFlash outcome
  if translatedText = "" then []
  else
    [TTSEffect.displayTranslation translatedText, TTSEffect.highlightSegment]
      ++ (if sessionPromisePresent then [TTSEffect.sendSpeakTurn translatedText] else [])

/-! ## System/display capture acquisition (startLiveSession, lines 672-688 in
variant 1 and lines 1158-1190 in variant 2) -/

/-- Outcome of the getDisplayMedia call: rejection with a DOMException-like
error (name, message) — covering both user cancellation and permission
denial, which browsers surface as NotAllowedError — or a granted stream with
the given numbers of audio and video tracks. -/
inductive SysGrant where
  | failure (errName errMessage : String)
  | granted (audioTracks videoTracks : ℕ)
deriving DecidableEq, Repr

/-- Result of the system-capture acquisition step: whether session start
proceeds past it, the status text reported (none when no error is reported),
and whether every granted track was stopped before returning. -/
structure SysCaptureResult where
  proceeded : Bool
  errorReported : Option String
  tracksStopped : Bool
deriving DecidableEq, Repr

/-- The message of the Error thrown by variant 2 when the granted stream has
no audio track. -/
def noAudioTrackMessage : String :=
  "No audio track selected. Did you forget to check \x27Share Audio\x27?"

/-- The catch handler of variant 2 for the system branch (lines 1176-1189):
NotAllowedError or PermissionDeniedError yields the cancellation status,
any other error yields err.message, with a fixed fallback when the message
is empty. -/
def sysCatchMessage (errName errMessage : String) : String :=
  if errName = "NotAllowedError" || errName = "PermissionDeniedError" then
    "Selection cancelled."
  else if errMessage = "" then "System audio error."
  else errMessage

/-- System-capture acquisition in variant 1 (lines 672-688): any rejection is
reported as permission denial; a granted stream is used as-is with no check
of its audio tracks and no track released. -/
def acquireSystemStream_v1 : SysGrant → SysCaptureResult
  | .failure _ _ =>
      { proceeded := false
        errorReported := some "System audio permission denied."
        tracksStopped := false }
  | .granted _ _ =>
      { proceeded := true, errorReported := none, tracksStopped := false }

/-- System-capture acquisition in variant 2 (lines 1158-1190): a granted
stream with zero audio tracks has all its tracks stopped and an Error (name
Error) thrown, which the catch handler turns into its message; a rejection
goes through the same catch handler; otherwise the stream is used. -/
def acquireSystemStream_v2 : SysGrant → SysCaptureResult
  | .failure errName errMessage =>
      { proceeded := false
        errorReported := some (sysCatchMessage errName errMessage)
        tracksStopped := false }
  | .granted audioTracks _ =>
      if audioTracks = 0 then
        { proceeded := false
          errorReported := some (sysCatchMessage "Error" noAudioTrackMessage)
          tracksStopped := true }
      else
        { proceeded := true, errorReported := none, tracksStopped := false }

/-! ## Session teardown (stopLiveSession, src/index.tsx lines 947-992) -/

/-- The orchestrator fields touched by stopLiveSession. hasRecognition
records whether a recognizer instance exists (mic sessions create one);
processorCallbackAttached models processor.onaudioprocess being non-null;
sessionPromisePresent models the sessionPromise field being non-null. -/
structure SessionResources where
  isRecording : Bool
  hasRecognition : Bool
  isWebSpeechActive : Bool
  processorCallbackAttached : Bool
  streamTracksStopped : Bool
  sessionPromisePresent : Bool
deriving DecidableEq, Repr

/-- stopLiveSession: isRecording := false; if a recognizer exists,
isWebSpeechActive := false and recognition.stop(); the processor callback is
nulled and the processor disconnected; every capture track is stopped; the
audio contexts are closed. The sessionPromise field is left untouched. -/
def stopLiveSession (r : SessionResources) : SessionResources :=
  { isRecording := false
    hasRecognition := r.hasRecognition
    isWebSpeechActive := if r.hasRecognition then false else r.isWebSpeechActive
    processorCallbackAttached := false
    streamTracksStopped := true
    sessionPromisePresent := r.sessionPromisePresent }

/-! ## Helper lemmas -/

/-- Scheduling from a cursor with no late chunk yields start times that are
the cursor plus the partial sums of the durations. -/
theorem scheduleChunks_getD_of_noLate (cs : List PlaybackChunk) :
    ∀ (cursor : ℚ), noLateChunks cursor cs →
      ∀ k, k < cs.length →
        (scheduleChunks cursor cs).1.getD k 0 =
          cursor + ((cs.take k).map PlaybackChunk.duration).sum := by
  induction cs with
  | nil =>
    intro cursor _ k hk
    exact absurd hk (by simp)
  | cons c cs ih =>
    intro cursor h k hk
    obtain ⟨h1, h2⟩ := h
    have hstep : playAudioChunk cursor c = (cursor, cursor + c.duration) := by
      simp [playAudioChunk, if_neg (not_lt.mpr h1)]
    cases k with
    | zero => simp [scheduleChunks, hstep]
    | succ k =>
      have hk2 : k < cs.length := by simpa using hk
      simp only [scheduleChunks, hstep, List.getD_cons_succ, List.take_succ_cons,
        List.map_cons, List.sum_cons]
      rw [ih (cursor + c.duration) h2 k hk2]
      ring

/-- Truncation toward zero does not increase the absolute value. -/
theorem ratTrunc_cast_abs_le (q : ℚ) : |(ratTrunc q : ℚ)| ≤ |q| := by
  unfold ratTrunc
  split
  · rename_i h
    have hf : (0 : ℤ) ≤ ⌊q⌋ := Int.floor_nonneg.mpr h
    rw [abs_of_nonneg h, abs_of_nonneg (by exact_mod_cast hf)]
    exact Int.floor_le q
  · rename_i h
    have hq : q ≤ 0 := le_of_not_le h
    have hc : ⌈q⌉ ≤ (0 : ℤ) := Int.ceil_le.mpr (by exact_mod_cast hq)
    rw [abs_of_nonpos hq, abs_of_nonpos (by exact_mod_cast hc)]
    exact neg_le_neg (Int.le_ceil q)

/-- Truncation toward zero moves a rational by strictly less than one. -/
theorem ratTrunc_cast_sub_abs_lt (q : ℚ) : |(ratTrunc q : ℚ) - q| < 1 := by
  unfold ratTrunc
  split
  · rw [abs_sub_comm, abs_of_nonneg (sub_nonneg.mpr (Int.floor_le q))]
    have := Int.lt_floor_add_one q
    linarith
  · rw [abs_of_nonneg (sub_nonneg.mpr (Int.le_ceil q))]
    have := Int.ceil_lt_add_one q
    linarith

/-- The 16-bit wrap is the identity on values already in signed 16-bit range. -/
theorem toInt16_eq_self {n : ℤ} (h1 : -32768 ≤ n) (h2 : n ≤ 32767) : toInt16 n = n := by
  unfold toInt16
  rw [Int.emod_eq_of_lt (by omega) (by omega)]
  omega

/-- Clamping is the identity on samples already in [-1, 1]. -/
theorem clampSample_eq_self {x : ℚ} (h1 : -1 ≤ x) (h2 : x ≤ 1) : clampSample x = x := by
  unfold clampSample
  rw [min_eq_right h2, max_eq_right h1]

/-- The clamped sample always lies in [-1, 1]. -/
theorem clampSample_abs_le (x : ℚ) : |clampSample x| ≤ 1 := by
  unfold clampSample
  rw [abs_le]
  refine ⟨le_max_left _ _, max_le (by norm_num) (min_le_left _ _)⟩

/-- The truncated clamped product lies within [-32767, 32767]. -/
theorem ratTrunc_clamp_bounds (x : ℚ) :
    -32767 ≤ ratTrunc (clampSample x * 32767) ∧ ratTrunc (clampSample x * 32767) ≤ 32767 := by
  have habs : |(ratTrunc (clampSample x * 32767) : ℚ)| ≤ 32767 := by
    refine le_trans (ratTrunc_cast_abs_le _) ?_
    rw [abs_mul]
    calc |clampSample x| * |(32767 : ℚ)|
        ≤ 1 * |(32767 : ℚ)| := by
          exact mul_le_mul_of_nonneg_right (clampSample_abs_le x) (abs_nonneg _)
      _ = 32767 := by norm_num
  rw [abs_le] at habs
  obtain ⟨ha, hb⟩ := habs
  constructor
  · exact_mod_cast ha
  · exact_mod_cast hb

/-- In pcmEncode the 16-bit wrap never fires: the conversion is exactly
truncation toward zero of the clamped product. -/
theorem pcmEncode_eq_ratTrunc (x : ℚ) :
    pcmEncode x = ratTrunc (clampSample x * 32767) := by
  unfold pcmEncode
  exact toInt16_eq_self (by linarith [(ratTrunc_clamp_bounds x).1])
    (ratTrunc_clamp_bounds x).2

/-- A fatal error or stop leaves the adapter inactive under every later
event: no event of a session sets isWebSpeechActive back to true. -/
theorem speechStep_preserves_inactive (s : SpeechSessionState) (e : SpeechEvent)
    (h : s.isWebSpeechActive = false) : (speechStep s e).isWebSpeechActive = false := by
  cases e with
  | errorEvt code =>
    simp only [speechStep]
    split
    · rfl
    · exact h
  | endEvt => exact h
  | restartFailed => rfl
  | stopSession => rfl

/-- Folding any event trace over an inactive adapter keeps it inactive. -/
theorem foldl_speechStep_inactive (evts : List SpeechEvent) :
    ∀ s : SpeechSessionState, s.isWebSpeechActive = false →
      (List.foldl speechStep s evts).isWebSpeechActive = false := by
  induction evts with
  | nil => intro s h; exact h
  | cons e evts ih =>
    intro s h
    exact ih _ (speechStep_preserves_inactive s e h)

/-! ## Claims -/

/-- C1: every chunk handed to playAudioChunk is scheduled to start at
max(cursor, current output-context time) and the cursor is then advanced by
exactly the duration of that chunk; consequently, when no subsequent chunk is
delayed past the cursor, chunk k starts at the start time of the first chunk
plus the sum of the durations of the chunks before it (back-to-back, gapless
playback). -/
theorem playback_scheduler_gapless (cursor0 : ℚ) (c : PlaybackChunk)
    (cs : List PlaybackChunk) :
    ((playAudioChunk cursor0 c).1 = max cursor0 c.currentTime
        ∧ (playAudioChunk cursor0 c).2 = (playAudioChunk cursor0 c).1 + c.duration)
      ∧ (noLateChunks (playAudioChunk cursor0 c).2 cs →
          ∀ k, k < (c :: cs).length →
            (scheduleChunks cursor0 (c :: cs)).1.getD k 0 =
              (playAudioChunk cursor0 c).1
                + (((c :: cs).take k).map PlaybackChunk.duration).sum) := by
  constructor
  · constructor
    · unfold playAudioChunk
      rcases lt_or_ge cursor0 c.currentTime with h | h
      · simp [if_pos h, max_eq_right h.le]
      · simp [if_neg (not_lt.mpr h), max_eq_left h]
    · simp [playAudioChunk]
  · intro hno k hk
    cases k with
    | zero => simp [scheduleChunks]
    | succ k =>
      have hk2 : k < cs.length := by simpa using hk
      simp only [scheduleChunks, List.getD_cons_succ, List.take_succ_cons,
        List.map_cons, List.sum_cons]
      rw [scheduleChunks_getD_of_noLate cs (playAudioChunk cursor0 c).2 hno k hk2]
      simp only [playAudioChunk]
      ring

/-- C1 witness: cursor 0, first chunk arriving at time 1 with duration 2,
second chunk arriving at time 2 (not past the advanced cursor 3) with
duration 3; the second start time is the first start time plus 2. -/
theorem playback_scheduler_gapless_witness :
    (scheduleChunks 0 [⟨1, 2⟩, ⟨2, 3⟩]).1.getD 1 0 =
      (playAudioChunk 0 ⟨1, 2⟩).1
        + ((([⟨1, 2⟩, ⟨2, 3⟩] : List PlaybackChunk).take 1).map PlaybackChunk.duration).sum :=
  (playback_scheduler_gapless 0 ⟨1, 2⟩ [⟨2, 3⟩]).2
    (by constructor
        · show (2 : ℚ) ≤ (playAudioChunk 0 ⟨1, 2⟩).2
          norm_num [playAudioChunk]
        · trivial)
    1 (by norm_num)

/-- C2 counterexample: in variant 1 the audio-routing decision for a
Microphone session with translation active (for example output language es,
input language en-US) is false regardless of the recognition adapter: the
decision reads only the source type and the translation flag, so when local
recognition fails to start the policy does not flip to true, contrary to the
claimed runtime fallback. -/
theorem mic_translate_no_fallback_in_v1 :
    shouldStreamAudioToGemini_v1 SourceType.mic (isTranslationMode "es" "en-US") = false := by
  decide

/-- C2 amended: for Microphone with translation active, the resolved system
instruction is the pure read-aloud (text-to-speech) instruction in both
variants; variant 1 never streams audio to the cloud in this mode (it has no
recognition-failure fallback), while variant 2 streams audio exactly when the
recognition adapter is inactive at connection-open time (the runtime
fallback). -/
theorem mic_translate_plan (outputLanguage inputLanguage outputLanguageText : String)
    (isWebSpeechActive : Bool) (h : isTranslationMode outputLanguage inputLanguage = true) :
    resolveSystemInstruction SourceType.mic outputLanguage inputLanguage outputLanguageText
        = micTranslateInstruction outputLanguageText
      ∧ shouldStreamAudioToGemini_v1 SourceType.mic
          (isTranslationMode outputLanguage inputLanguage) = false
      ∧ shouldStreamAudioToGemini_v2 SourceType.mic
          (isTranslationMode outputLanguage inputLanguage) isWebSpeechActive
        = !isWebSpeechActive := by
  refine ⟨?_, ?_, ?_⟩
  · simp [resolveSystemInstruction, h]
  · simp [shouldStreamAudioToGemini_v1, h]
  · simp [shouldStreamAudioToGemini_v2, h]

/-- C2 witness: output language es, input language en-US, display text
Spanish, recognition inactive. -/
theorem mic_translate_plan_witness :
    isTranslationMode "es" "en-US" = true
      ∧ (resolveSystemInstruction SourceType.mic "es" "en-US" "Spanish"
            = micTranslateInstruction "Spanish"
          ∧ shouldStreamAudioToGemini_v1 SourceType.mic (isTranslationMode "es" "en-US") = false
          ∧ shouldStreamAudioToGemini_v2 SourceType.mic (isTranslationMode "es" "en-US") false
            = !false) :=
  ⟨by decide, mic_translate_plan "es" "en-US" "Spanish" false (by decide)⟩

/-- C3: starting from a fresh raw transcript, appending a final segment F1,
then setting the interim text to ab, then finalizing F2 = ab (the onresult
step with one final result ab) leaves the interim slot empty and the
finalized segments exactly F1 then F2, each stored with its single trailing
separator space; moreover every interim update wholly replaces the interim
slot and never touches the finalized segments (the interim slot structurally
renders after all finalized segments). -/
theorem transcript_final_interim_final (F1 : String) (h : jsTrim F1 ≠ "") :
    ((micOnresult true true true true
        (updateInterimText (appendRawSegment (ensureInterimSpan ⟨[], none⟩) F1) "ab")
        [⟨"ab", true⟩]).1.segments = [F1, "ab"].map (fun s => s ++ " ")
      ∧ (micOnresult true true true true
          (updateInterimText (appendRawSegment (ensureInterimSpan ⟨[], none⟩) F1) "ab")
          [⟨"ab", true⟩]).1.interim = some "")
      ∧ ∀ (st : TranscriptState) (t : String),
          (updateInterimText st t).interim = some t
            ∧ (updateInterimText st t).segments = st.segments := by
  have hne : F1 ≠ "" := fun hF1 => h (by rw [hF1]; rfl)
  have hab : jsTrim "ab" = "ab" := rfl
  refine ⟨?_, ?_⟩
  · simp [micOnresult, gatherResults, appendRawSegment, updateInterimText,
      ensureInterimSpan, h, hne, hab]
  · intro st t
    cases hst : st.interim with
    | none => simp [updateInterimText, ensureInterimSpan, hst]
    | some s => simp [updateInterimText, ensureInterimSpan, hst]

/-- C3 witness: F1 = hello. -/
theorem transcript_final_interim_final_witness :
    jsTrim "hello" ≠ ""
      ∧ (((micOnresult true true true true
            (updateInterimText (appendRawSegment (ensureInterimSpan ⟨[], none⟩) "hello") "ab")
            [⟨"ab", true⟩]).1.segments = ["hello", "ab"].map (fun s => s ++ " ")
          ∧ (micOnresult true true true true
              (updateInterimText (appendRawSegment (ensureInterimSpan ⟨[], none⟩) "hello") "ab")
              [⟨"ab", true⟩]).1.interim = some "")
          ∧ ∀ (st : TranscriptState) (t : String),
              (updateInterimText st t).interim = some t
                ∧ (updateInterimText st t).segments = st.segments) :=
  ⟨by decide, transcript_final_interim_final "hello" (by decide)⟩

/-- C4: for every in-range PCM16 sample value v, decoding it by dividing by
32768 and re-encoding the result through the capture-pipeline quantization
pcmEncode lands within one quantization step of the original sample. -/
theorem pcm_roundtrip_within_one_step (v : ℤ) (h1 : -32768 ≤ v) (h2 : v ≤ 32767) :
    |pcmEncode (pcmDecode v) - v| ≤ 1 := by
  have hv1 : (-32768 : ℚ) ≤ (v : ℚ) := by exact_mod_cast h1
  have hv2 : (v : ℚ) ≤ 32767 := by exact_mod_cast h2
  have hx1 : (-1 : ℚ) ≤ pcmDecode v := by
    unfold pcmDecode
    rw [le_div_iff₀ (by norm_num : (0 : ℚ) < 32768)]
    linarith
  have hx2 : pcmDecode v ≤ 1 := by
    unfold pcmDecode
    rw [div_le_one (by norm_num : (0 : ℚ) < 32768)]
    linarith
  rw [pcmEncode_eq_ratTrunc, clampSample_eq_self hx1 hx2]
  have hqv : |pcmDecode v * 32767 - (v : ℚ)| ≤ 1 := by
    have hrw : pcmDecode v * 32767 - (v : ℚ) = -(pcmDecode v) := by
      unfold pcmDecode; ring
    rw [hrw, abs_neg, abs_le]
    exact ⟨hx1, hx2⟩
  have htq : |(ratTrunc (pcmDecode v * 32767) : ℚ) - pcmDecode v * 32767| < 1 :=
    ratTrunc_cast_sub_abs_lt _
  have hlt : |(ratTrunc (pcmDecode v * 32767) : ℚ) - (v : ℚ)| < 2 := by
    calc |(ratTrunc (pcmDecode v * 32767) : ℚ) - (v : ℚ)|
        ≤ |(ratTrunc (pcmDecode v * 32767) : ℚ) - pcmDecode v * 32767|
            + |pcmDecode v * 32767 - (v : ℚ)| := abs_sub_le _ _ _
      _ < 2 := by linarith
  have hint : |ratTrunc (pcmDecode v * 32767) - v| < 2 := by
    have := hlt
    rw [show ((ratTrunc (pcmDecode v * 32767) : ℚ) - (v : ℚ))
          = ((ratTrunc (pcmDecode v * 32767) - v : ℤ) : ℚ) by push_cast; ring,
        ← Int.cast_abs] at this
    exact_mod_cast this
  rw [abs_lt] at hint
  rw [abs_le]
  omega

/-- C4 witness: sample value 1000. -/
theorem pcm_roundtrip_within_one_step_witness :
    (-32768 ≤ (1000 : ℤ) ∧ (1000 : ℤ) ≤ 32767)
      ∧ |pcmEncode (pcmDecode 1000) - 1000| ≤ 1 :=
  ⟨⟨by decide, by decide⟩, pcm_roundtrip_within_one_step 1000 (by decide) (by decide)⟩

/-- C5 counterexample: at the captured sample x = 1/2 the pipeline produces
16383 (Int16Array conversion truncates toward zero) while
round(clamp(x,-1,1) * 32767) = round(16383.5) = 16384, so the conversion is
not round(clamp(x,-1,1) * 32767). -/
theorem pcm_quantization_not_round :
    pcmEncode (1 / 2) = 16383
      ∧ pcmEncodeSpec (1 / 2) = 16384
      ∧ pcmEncode (1 / 2) ≠ pcmEncodeSpec (1 / 2) := by
  have hc : clampSample (1 / 2 : ℚ) = 1 / 2 :=
    clampSample_eq_self (by norm_num) (by norm_num)
  have hm : (1 / 2 : ℚ) * 32767 = 32767 / 2 := by ring
  have h1 : pcmEncode (1 / 2) = 16383 := by
    rw [pcmEncode_eq_ratTrunc, hc, hm]
    unfold ratTrunc
    rw [if_pos (by norm_num)]
    norm_num
  have h2 : pcmEncodeSpec (1 / 2) = 16384 := by
    unfold pcmEncodeSpec
    rw [hc, hm, round_eq]
    norm_num
  exact ⟨h1, h2, by rw [h1, h2]; decide⟩

/-- C5 amended: the capture pipeline converts each 32-bit floating-point
sample x to the 16-bit signed integer trunc(clamp(x, -1, 1) * 32767),
truncating toward zero (JavaScript Int16Array element conversion semantics)
rather than rounding to nearest; the 16-bit wrap never alters the value
because the truncated clamped product always lies within [-32767, 32767]. -/
theorem pcm_quantization_truncates (x : ℚ) :
    pcmEncode x = ratTrunc (clampSample x * 32767)
      ∧ -32767 ≤ pcmEncode x ∧ pcmEncode x ≤ 32767 := by
  refine ⟨pcmEncode_eq_ratTrunc x, ?_, ?_⟩
  · rw [pcmEncode_eq_ratTrunc]; exact (ratTrunc_clamp_bounds x).1
  · rw [pcmEncode_eq_ratTrunc]; exact (ratTrunc_clamp_bounds x).2

/-- C6 counterexample: variant 1 performs no audio-track check at all — a
system-capture grant with zero audio tracks and one video track proceeds with
no reported error and no released track; and in variant 2 permission denial
and user cancellation produce the same status text, so there is no third
distinct case. -/
theorem system_capture_claim_fails :
    acquireSystemStream_v1 (SysGrant.granted 0 1)
        = { proceeded := true, errorReported := none, tracksStopped := false }
      ∧ (acquireSystemStream_v2 (SysGrant.failure "PermissionDeniedError" "denied")).errorReported
        = (acquireSystemStream_v2 (SysGrant.failure "NotAllowedError" "dismissed")).errorReported := by
  refine ⟨?_, ?_⟩ <;> decide

/-- C6 amended: only variant 2 checks for an audio track: there a grant with
zero audio tracks stops every granted track before returning, aborts session
start, and reports the dedicated no-audio-track message, which is distinct
from the single Selection cancelled message that covers both permission
denial and user cancellation (no separate third case); variant 1 performs no
such check and proceeds on a grant without audio tracks. -/
theorem system_capture_no_audio_track_v2 (videoTracks : ℕ) :
    (acquireSystemStream_v2 (SysGrant.granted 0 videoTracks)).proceeded = false
      ∧ (acquireSystemStream_v2 (SysGrant.granted 0 videoTracks)).tracksStopped = true
      ∧ (acquireSystemStream_v2 (SysGrant.granted 0 videoTracks)).errorReported
          = some noAudioTrackMessage
      ∧ noAudioTrackMessage ≠ "Selection cancelled."
      ∧ (∀ m, (acquireSystemStream_v2 (SysGrant.failure "NotAllowedError" m)).errorReported
            = some "Selection cancelled.")
      ∧ ∀ a v, (acquireSystemStream_v1 (SysGrant.granted a v)).errorReported = none := by
  refine ⟨?_, ?_, ?_, by decide, ?_, ?_⟩
  · simp [acquireSystemStream_v2]
  · simp [acquireSystemStream_v2]
  · simp [acquireSystemStream_v2, sysCatchMessage, noAudioTrackMessage]
  · intro m
    simp [acquireSystemStream_v2, sysCatchMessage]
  · intro a v
    simp [acquireSystemStream_v1]

/-- C7: an onerror event with code not-allowed (or aborted) clears the
adapter active flag, and since no session event re-activates the adapter, no
later onend can decide to restart for the remainder of the session; any other
error code leaves the state — and hence the restart-on-end behavior —
entirely unchanged. -/
theorem recognizer_fatal_error_disables (s : SpeechSessionState) (code : String)
    (h : code = "not-allowed" ∨ code = "aborted") (evts : List SpeechEvent) :
    (speechStep s (SpeechEvent.errorEvt code)).isWebSpeechActive = false
      ∧ onendRestarts
          (List.foldl speechStep (speechStep s (SpeechEvent.errorEvt code)) evts) = false
      ∧ ∀ c, c ≠ "not-allowed" → c ≠ "aborted" →
          speechStep s (SpeechEvent.errorEvt c) = s := by
  have hdis : (speechStep s (SpeechEvent.errorEvt code)).isWebSpeechActive = false := by
    rcases h with h | h <;> simp [speechStep, h]
  refine ⟨hdis, ?_, ?_⟩
  · have := foldl_speechStep_inactive evts _ hdis
    simp [onendRestarts, this]
  · intro c hc1 hc2
    simp [speechStep, hc1, hc2]

/-- C7 witness: a recording session with an active adapter receives
not-allowed; a subsequent onend does not restart. -/
theorem recognizer_fatal_error_disables_witness :
    ("not-allowed" = "not-allowed" ∨ "not-allowed" = "aborted")
      ∧ ((speechStep ⟨true, true⟩ (SpeechEvent.errorEvt "not-allowed")).isWebSpeechActive = false
          ∧ onendRestarts
              (List.foldl speechStep (speechStep ⟨true, true⟩ (SpeechEvent.errorEvt "not-allowed"))
                [SpeechEvent.endEvt]) = false
          ∧ ∀ c, c ≠ "not-allowed" → c ≠ "aborted" →
              speechStep ⟨true, true⟩ (SpeechEvent.errorEvt c) = ⟨true, true⟩) :=
  ⟨Or.inl rfl,
    recognizer_fatal_error_disables ⟨true, true⟩ "not-allowed" (Or.inl rfl) [SpeechEvent.endEvt]⟩

/-- C8: when the Flash call fails or yields a result that trims to empty,
translateTextWithFlash returns the empty string (never rethrows), and
handleTranslationAndTTS then performs no downstream effect: nothing is
displayed, no segment is highlighted, nothing is sent to the live session. -/
theorem translation_failure_noop (o : FlashOutcome) (sessionPromisePresent : Bool)
    (h : o = FlashOutcome.failure ∨ ∃ t, o = FlashOutcome.success t ∧ jsTrim t = "") :
    translateTextWithFlash o = ""
      ∧ handleTranslationAndTTS o sessionPromisePresent = [] := by
  have he : translateTextWithFlash o = "" := by
    rcases h with h | ⟨t, rfl, ht⟩
    · rw [h]; rfl
    · simpa [translateTextWithFlash] using ht
  refine ⟨he, ?_⟩
  simp [handleTranslationAndTTS, he]

/-- C8 witness: a failed Flash call with a live session present. -/
theorem translation_failure_noop_witness :
    (FlashOutcome.failure = FlashOutcome.failure
        ∨ ∃ t, FlashOutcome.failure = FlashOutcome.success t ∧ jsTrim t = "")
      ∧ (translateTextWithFlash FlashOutcome.failure = ""
          ∧ handleTranslationAndTTS FlashOutcome.failure true = []) :=
  ⟨Or.inl rfl, translation_failure_noop FlashOutcome.failure true (Or.inl rfl)⟩

/-- C9 counterexample: the onresult handler consults no session-active flag —
with isRecording and isWebSpeechActive both false (a stopped session), a
late-arriving final result hi still appends a raw segment and still hands the
text to the translation pipeline. -/
theorem late_recognizer_result_still_acted_upon :
    micOnresult false false true true ⟨[], some ""⟩ [⟨"hi", true⟩]
      = (⟨["hi "], some ""⟩, some "hi") := by
  decide

/-- C9 amended: stopLiveSession clears isRecording and (when a recognizer
exists) isWebSpeechActive, so the onend guard never restarts after stop; it
detaches the audio-process callback and stops every capture track, so no
further frames are produced; but it leaves the session promise in place, and
the onresult handler itself reads no session-active flag at all — its effect
is identical whatever the values of isRecording and isWebSpeechActive, so a
late-arriving recognizer result is still acted upon. -/
theorem stop_session_late_callbacks (r : SessionResources) (hr : r.hasRecognition = true) :
    (stopLiveSession r).isRecording = false
      ∧ (stopLiveSession r).isWebSpeechActive = false
      ∧ onendRestarts
          ⟨(stopLiveSession r).isRecording, (stopLiveSession r).isWebSpeechActive⟩ = false
      ∧ (stopLiveSession r).processorCallbackAttached = false
      ∧ (stopLiveSession r).streamTracksStopped = true
      ∧ (stopLiveSession r).sessionPromisePresent = r.sessionPromisePresent
      ∧ ∀ (b1 b2 sm tm : Bool) (st : TranscriptState) (rs : List RecResult),
          micOnresult b1 b2 sm tm st rs = micOnresult true true sm tm st rs := by
  refine ⟨rfl, by simp [stopLiveSession, hr], by simp [stopLiveSession, onendRestarts],
    rfl, rfl, rfl, ?_⟩
  intro b1 b2 sm tm st rs
  rfl

/-- C9 amended witness: a fully live microphone session being stopped. -/
theorem stop_session_late_callbacks_witness :
    (⟨true, true, true, true, false, true⟩ : SessionResources).hasRecognition = true
      ∧ ((stopLiveSession ⟨true, true, true, true, false, true⟩).isRecording = false
          ∧ (stopLiveSession ⟨true, true, true, true, false, true⟩).isWebSpeechActive = false
          ∧ onendRestarts
              ⟨(stopLiveSession ⟨true, true, true, true, false, true⟩).isRecording,
               (stopLiveSession ⟨true, true, true, true, false, true⟩).isWebSpeechActive⟩ = false
          ∧ (stopLiveSession
              ⟨true, true, true, true, false, true⟩).processorCallbackAttached = false
          ∧ (stopLiveSession ⟨true, true, true, true, false, true⟩).streamTracksStopped = true
          ∧ (stopLiveSession ⟨true, true, true, true, false, true⟩).sessionPromisePresent
            = (⟨true, true, true, true, false, true⟩ : SessionResources).sessionPromisePresent
          ∧ ∀ (b1 b2 sm tm : Bool) (st : TranscriptState) (rs : List RecResult),
              micOnresult b1 b2 sm tm st rs = micOnresult true true sm tm st rs) :=
  ⟨rfl, stop_session_late_callbacks ⟨true, true, true, true, false, true⟩ rfl⟩

/-- C10: a final recognizer result whose text is empty or whitespace-only is
silently dropped by appendRawSegment: the transcript state — finalized
segments and interim slot alike — is returned unchanged. -/
theorem blank_final_dropped (st : TranscriptState) (text : String) (h : jsTrim text = "") :
    appendRawSegment st text = st := by
  simp [appendRawSegment, h]

/-- C10 witness: two spaces into a transcript with one segment and a live
interim slot. -/
theorem blank_final_dropped_witness :
    jsTrim "  " = ""
      ∧ appendRawSegment ⟨["a "], some "x"⟩ "  " = ⟨["a "], some "x"⟩ :=
  ⟨by decide, blank_final_dropped ⟨["a "], some "x"⟩ "  " (by decide)⟩

end TranscriberTranslator
